import Mathlib

/-!
Shallow embedding of the media-asset registry service (src/main.py, src/models.py).

The service is a FastAPI application over a Pony ORM entity `MediaAsset`.
Datetimes are embedded as `Nat` timestamps; the relational store is a
`List MediaAsset`; a handler's transactional scope (`with db_session`) is
embedded by threading the store through `Except`, where an error leaves the
original store (Pony rolls the session back when an exception escapes it).

Library behaviour embedded alongside the repository's own code, with the
evidence for each choice noted at the definition site:
  * pydantic v1 (`validate_model` in pydantic/v1/main.py) validates fields in
    declaration order, and a `@validator` receives in `values` only the
    fields already validated, i.e. only those declared earlier;
  * FastAPI's `APIKeyHeader` (fastapi/security/api_key.py) with the default
    `auto_error=True` raises `HTTPException(403, "Not authenticated")` when
    the header is missing or empty, before the dependency body runs;
  * Pony ORM: `Required` attributes reject `None` (and an entity cannot be
    created or updated with a missing required attribute); `gtin` carries a
    unique constraint whose violation raises inside the session; keyword
    filters given to `get` are equality conditions — a `None`-valued keyword
    is not dropped, and on a non-nullable column it can only match the
    empty/absent value, which records created through this API never hold.
    Optional string attributes conflate `NULL` and the empty string (Pony
    stores them non-nullable by default), so an absent optional string is
    represented here as `none`.
-/

namespace MediaLake

/-! ## Python truthiness -/

/-- Truthiness of an optional string as Python evaluates it in an `if`:
absent and the empty string are falsy, every other string is truthy. -/
def truthyStr : Option String → Bool
  | none => false
  | some s => s != ""

/-- Truthiness of an optional datetime: a `datetime` object is always truthy,
an absent value is falsy. -/
def truthyDatetime : Option Nat → Bool
  | none => false
  | some _ => true

/-! ## Contract layer (src/main.py lines 41-161) -/

/-- Validation model for the `media` field of a media asset
(`MediaModel`, src/main.py lines 41-58), after parsing. -/
structure MediaModel where
  payload : Option String
  sourceUrl : Option String
  sourceUrlValidUntil : Option Nat
  deriving Repr, DecidableEq

/-- Body of the `validate_payload` validator (src/main.py lines 50-58): it
receives the value of `payload` and the dict `values` of the fields already
validated, and raises when `payload` is truthy and `values` holds a truthy
`sourceUrl` or `sourceUrlValidUntil`. -/
def validate_payload (value : Option String) (valuesSourceUrl : Option String)
    (valuesSourceUrlValidUntil : Option Nat) : Except String (Option String) :=
  if truthyStr value && (truthyStr valuesSourceUrl || truthyDatetime valuesSourceUrlValidUntil) then
    Except.error
      "Only 1 of payload or sourceUrl/sourceUrlValidUntil may be entered at the same time."
  else
    Except.ok value

/-- Parsing a `MediaModel` request body. Pydantic v1 (`validate_model`,
pydantic/v1/main.py) processes fields in declaration order and passes each
validator only the previously validated fields in `values`. `payload` is the
first field declared in `MediaModel`, so when `validate_payload` runs,
`values` contains neither `sourceUrl` nor `sourceUrlValidUntil`: both lookups
yield `None`. -/
def MediaModel.parse (payload sourceUrl : Option String) (sourceUrlValidUntil : Option Nat) :
    Except String MediaModel := do
  let p ← validate_payload payload none none
  Except.ok ⟨p, sourceUrl, sourceUrlValidUntil⟩

/-- Literal set of the `contentType` fields. -/
def contentTypeLiterals : List String :=
  ["image/tiff", "image/png", "image/jpeg", "image/gif", "image/bmp"]

/-- Literal set of the `mediaType` fields. -/
def mediaTypeLiterals : List String :=
  ["MainImage", "AuxiliaryImage", "AdditionalImage", "SwatchImage"]

/-- Literal set of the `status` field. -/
def statusLiterals : List String :=
  ["ML010New", "ML030Imported", "ML060QaPending", "ML070QaApproved", "ML090Retired", "ML099Error"]

/-- Literal set of the `resolutionKey` fields. -/
def resolutionKeyLiterals : List String :=
  ["ORIGINAL", "X240", "X1024", "X2048"]

/-- Base model shared by the create, response and update payloads
(`BaseMediaAssetModel`, src/main.py lines 90-130). Enum-typed fields are
embedded as strings together with the membership checks of `validBase`. -/
structure BaseMediaAssetModel where
  gtin : String
  channel : String
  mediaId : String
  contentType : String
  mediaType : Option String
  description : Option String
  brand : Option String
  category : Option String
  status : Option String
  resolutionKey : Option String
  resolutionInPx : Option String
  hasCopyright : Bool
  deriving Repr, DecidableEq

/-- Membership test for an optional enum-constrained field: absent passes,
present must be in the literal set. -/
def optLit (lits : List String) : Option String → Bool
  | none => true
  | some v => lits.contains v

/-- The enum constraints pydantic enforces on a `BaseMediaAssetModel` before
any handler runs. -/
def validBase (x : BaseMediaAssetModel) : Bool :=
  contentTypeLiterals.contains x.contentType &&
  optLit mediaTypeLiterals x.mediaType &&
  optLit statusLiterals x.status &&
  optLit resolutionKeyLiterals x.resolutionKey

/-- Create model (`MediaAssetCreateModel`, src/main.py lines 133-138): the
base fields plus an optional `media` sub-object. -/
structure MediaAssetCreateModel extends BaseMediaAssetModel where
  media : Option MediaModel := none
  deriving Repr, DecidableEq

/-- Request validation of one create item: enum constraints plus the
`MediaModel` validator chain on the sub-object when present. -/
def validCreateItem (x : MediaAssetCreateModel) : Bool :=
  validBase x.toBaseMediaAssetModel &&
  (match x.media with
   | none => true
   | some m => (MediaModel.parse m.payload m.sourceUrl m.sourceUrlValidUntil).toBool)

/-- Query model (`MediaAssetQueryModel`, src/main.py lines 61-87): every
field optional. -/
structure MediaAssetQueryModel where
  gtin : Option String := none
  channel : Option String := none
  mediaId : Option String := none
  contentType : Option String := none
  mediaType : Option String := none
  resolutionKey : Option String := none
  deriving Repr, DecidableEq

/-- Delete model (`MediaAssetDeleteModel`, src/main.py lines 147-161): every
field optional. -/
structure MediaAssetDeleteModel where
  channel : Option String := none
  gtin : Option String := none
  mediaId : Option String := none
  contentType : Option String := none
  deriving Repr, DecidableEq

/-! ## Persisted entity (src/models.py lines 18-43) -/

/-- The `MediaAsset` Pony entity. `Required` attributes are plain values,
`Optional` attributes are `Option` values (for strings, `none` stands for
the empty/absent value Pony stores in the non-nullable column). `media` holds
the `json.dumps` serialisation the create handler writes. -/
structure MediaAsset where
  gtin : String
  channel : String
  mediaId : String
  contentType : Option String
  mediaType : Option String
  description : Option String
  brand : Option String
  category : Option String
  hasCopyright : Option Bool
  media : Option String
  status : String
  resolutionKey : String
  resolutionInPx : String
  sizeInBytes : Option Int
  licenseValidFrom : Nat
  licenseValidUntil : Nat
  sourceUrl : Option String
  sourceUrlValidFrom : Option Nat
  sourceUrlValidUntil : Option Nat
  deriving Repr, DecidableEq

/-! ## Creation endpoint (src/main.py lines 177-203) -/

/-- Rendering of an optional string under `json.dumps` (quoting only; the
claims never depend on escape details). -/
def jsonOptStr : Option String → String
  | none => "null"
  | some s => "\"" ++ s ++ "\""

/-- Rendering of an optional datetime under `json.dumps(..., default=str)`:
the datetime is passed through `str`. -/
def jsonOptDatetime : Option Nat → String
  | none => "null"
  | some n => "\"" ++ toString n ++ "\""

/-- The `json.dumps(data['media'], default=str)` call of line 199: the
sub-object's dict, or `null` when the item carries no `media`. -/
def mediaDumps : Option MediaModel → String
  | none => "null"
  | some m =>
    "\x7b\"payload\": " ++ jsonOptStr m.payload ++
    ", \"sourceUrl\": " ++ jsonOptStr m.sourceUrl ++
    ", \"sourceUrlValidUntil\": " ++ jsonOptDatetime m.sourceUrlValidUntil ++ "\x7d"

/-- Lines 188-197: `sourceUrl`, `sourceUrlValidFrom` and `sourceUrlValidUntil`
of `data`, copied from the sub-object only when `media_asset.media` and
`media_asset.media.sourceUrl` are both truthy (a model instance is always
truthy; a string is truthy when non-empty). `sourceUrlValidFrom` receives the
sub-object's `sourceUrlValidUntil` (the code notes it has no proper source
for that field). -/
def sourceFields (m : Option MediaModel) : Option String × Option Nat × Option Nat :=
  match m with
  | some mm => if truthyStr mm.sourceUrl then (mm.sourceUrl, mm.sourceUrlValidUntil, mm.sourceUrlValidUntil) else (none, none, none)
  | none => (none, none, none)

/-- The row `MediaAsset(**data)` inserts for one create item whose required
attributes `status`, `resolutionKey`, `resolutionInPx` carry the given
values. Fields absent from `data` take the entity defaults:
`licenseValidFrom`/`licenseValidUntil` default to the moment of creation
(`datetime.now`), `sizeInBytes` and the source fields to absent. -/
def buildRecord (now : Nat) (x : MediaAssetCreateModel) (st rk rp : String) : MediaAsset :=
  { gtin := x.gtin
    channel := x.channel
    mediaId := x.mediaId
    contentType := some x.contentType
    mediaType := x.mediaType
    description := x.description
    brand := x.brand
    category := x.category
    hasCopyright := some x.hasCopyright
    media := some (mediaDumps x.media)
    status := st
    resolutionKey := rk
    resolutionInPx := rp
    sizeInBytes := none
    licenseValidFrom := now
    licenseValidUntil := now
    sourceUrl := (sourceFields x.media).1
    sourceUrlValidFrom := (sourceFields x.media).2.1
    sourceUrlValidUntil := (sourceFields x.media).2.2 }

/-- One loop iteration of the create handler: `MediaAsset(**data)` inside the
open session. Pony rejects `None` for a `Required` attribute, and the unique
constraint on `gtin` rejects a value already present (in the session cache at
construction, or in the table at flush — both inside the handler's `try`;
the model raises at the insert). -/
def insertOne (now : Nat) (s : List MediaAsset) (x : MediaAssetCreateModel) :
    Except String (List MediaAsset) :=
  match x.status with
  | none => Except.error "Attribute MediaAsset.status is required"
  | some st =>
    match x.resolutionKey with
    | none => Except.error "Attribute MediaAsset.resolutionKey is required"
    | some rk =>
      match x.resolutionInPx with
      | none => Except.error "Attribute MediaAsset.resolutionInPx is required"
      | some rp =>
        if s.any (fun r => r.gtin == x.gtin) then
          Except.error ("Cannot create MediaAsset: value " ++ x.gtin ++ " for key gtin already exists")
        else
          Except.ok (s ++ [buildRecord now x st rk rp])

/-- The `for media_asset in media_assets` loop of the create handler, run
inside one `db_session`. -/
def processCreate (now : Nat) (s : List MediaAsset) :
    List MediaAssetCreateModel → Except String (List MediaAsset)
  | [] => Except.ok s
  | x :: rest =>
    match insertOne now s x with
    | Except.error e => Except.error e
    | Except.ok s' => processCreate now s' rest

/-- Reply of the create endpoint: `202` echoing the submitted list on
success, or `HTTPException(400, str(e))` when the `except` clause catches
anything raised in the session. -/
inductive CreateReply where
  | accepted (echo : List MediaAssetCreateModel)
  | badRequest (detail : String)
  deriving Repr, DecidableEq

/-- HTTP status of a create reply. -/
def CreateReply.status : CreateReply → Nat
  | .accepted _ => 202
  | .badRequest _ => 400

/-- The `create_media_assets` handler (src/main.py lines 177-203): the whole
batch runs in one `db_session` wrapped in `try`; any exception rolls the
session back (the store reverts to its state at entry) and is reported as a
400 with the raw error text. -/
def create_media_assets (items : List MediaAssetCreateModel) (s : List MediaAsset)
    (now : Nat) : List MediaAsset × CreateReply :=
  match processCreate now s items with
  | Except.ok s' => (s', CreateReply.accepted items)
  | Except.error e => (s, CreateReply.badRequest e)

/-! ## Listing endpoint (src/main.py lines 164-174) -/

/-- Equality condition of one supplied query filter against a required
string column; an unsupplied filter is dropped by `exclude_none=True`. -/
def matchOptReq (q : Option String) (v : String) : Bool :=
  match q with
  | none => true
  | some qq => v == qq

/-- Equality condition of one supplied query filter against an optional
column; an unsupplied filter is dropped by `exclude_none=True`. -/
def matchOptOpt (q : Option String) (v : Option String) : Bool :=
  match q with
  | none => true
  | some qq => v == some qq

/-- The AND-combined filter `MediaAsset.select(**params.dict(exclude_none=True))`
applies to one row. -/
def matchesQuery (q : MediaAssetQueryModel) (r : MediaAsset) : Bool :=
  matchOptReq q.gtin r.gtin &&
  matchOptReq q.channel r.channel &&
  matchOptReq q.mediaId r.mediaId &&
  matchOptOpt q.contentType r.contentType &&
  matchOptOpt q.mediaType r.mediaType &&
  matchOptOpt q.resolutionKey r.resolutionKey

/-- The `get_media_assets` handler (src/main.py lines 164-174): selects the
rows matching every supplied filter and returns them with status 200. -/
def get_media_assets (q : MediaAssetQueryModel) (s : List MediaAsset) : List MediaAsset :=
  s.filter (matchesQuery q)

/-! ## Update endpoint (src/main.py lines 206-218) -/

/-- One `media_asset_object.set(**media_asset.dict())` call: the dict of a
`MediaAssetResponseModel` holds exactly the base fields, with omitted
optional fields as `None`. Pony validates the whole kwarg dict before
assigning, and rejects `None` for the `Required` attributes `status`,
`resolutionKey`, `resolutionInPx`; every other field is assigned, and no
attribute outside the dict is touched. -/
def setRecord (r : MediaAsset) (x : BaseMediaAssetModel) : Except String MediaAsset :=
  match x.status with
  | none => Except.error "Attribute MediaAsset.status is required"
  | some st =>
    match x.resolutionKey with
    | none => Except.error "Attribute MediaAsset.resolutionKey is required"
    | some rk =>
      match x.resolutionInPx with
      | none => Except.error "Attribute MediaAsset.resolutionInPx is required"
      | some rp =>
        Except.ok { r with
          gtin := x.gtin
          channel := x.channel
          mediaId := x.mediaId
          contentType := some x.contentType
          mediaType := x.mediaType
          description := x.description
          brand := x.brand
          category := x.category
          hasCopyright := some x.hasCopyright
          status := st
          resolutionKey := rk
          resolutionInPx := rp }

/-- One loop iteration of the update handler:
`MediaAsset.get(gtin=media_asset.gtin)` locates the first (unique) row with
that `gtin`; when none exists the item is skipped (`continue`); otherwise
the located row is overwritten in place by `set`. -/
def updateStep (x : BaseMediaAssetModel) : List MediaAsset → Except String (List MediaAsset)
  | [] => Except.ok []
  | r :: rest =>
    if r.gtin == x.gtin then
      match setRecord r x with
      | Except.error e => Except.error e
      | Except.ok r' => Except.ok (r' :: rest)
    else
      match updateStep x rest with
      | Except.error e => Except.error e
      | Except.ok rest' => Except.ok (r :: rest')

/-- The `for media_asset in media_assets` loop of the update handler. -/
def processUpdate (s : List MediaAsset) :
    List BaseMediaAssetModel → Except String (List MediaAsset)
  | [] => Except.ok s
  | x :: rest =>
    match updateStep x s with
    | Except.error e => Except.error e
    | Except.ok s' => processUpdate s' rest

/-- The `update_media_assets` handler (src/main.py lines 206-218): on
success it answers 202 echoing the submitted list; it has no `except`
clause, so an exception rolls the session back and propagates to the
hosting runtime. -/
def update_media_assets (items : List BaseMediaAssetModel) (s : List MediaAsset) :
    Except String (List MediaAsset × List BaseMediaAssetModel) :=
  match processUpdate s items with
  | Except.ok s' => Except.ok (s', items)
  | Except.error e => Except.error e

/-! ## Deletion endpoint (src/main.py lines 221-234) -/

/-- Equality condition of one delete filter against a required (non-null)
string column. The kwargs dict is built by `media_asset.dict()` WITHOUT
`exclude_none`, so an omitted field arrives as `None` and stays an equality
condition; on a column that never holds the null/empty value it matches no
row. -/
def deleteCondReq (q : Option String) (v : String) : Bool :=
  match q with
  | none => false
  | some qq => v == qq

/-- Equality condition of the delete filter `contentType` against the
optional `contentType` column: `None` matches exactly the rows whose stored
value is the absent one. -/
def deleteCondOpt (q : Option String) (v : Option String) : Bool :=
  match q with
  | none => v == (none : Option String)
  | some qq => v == some qq

/-- The row condition of `MediaAsset.get(**media_asset.dict())` in the
delete handler: all four fields participate, including the `None` ones. -/
def matchesDelete (d : MediaAssetDeleteModel) (r : MediaAsset) : Bool :=
  deleteCondReq d.channel r.channel &&
  deleteCondReq d.gtin r.gtin &&
  deleteCondReq d.mediaId r.mediaId &&
  deleteCondOpt d.contentType r.contentType

/-- Reply of the delete endpoint: 200 on deletion, `HTTPException(404)` when
`get` finds nothing, and a propagated error when `get` finds several rows
(Pony's `get` raises on multiple results). -/
inductive DeleteReply where
  | deleted
  | notFound
  | multipleFound
  deriving Repr, DecidableEq

/-- HTTP status of a delete reply (a propagated exception surfaces as the
hosting runtime's 500). -/
def DeleteReply.status : DeleteReply → Nat
  | .deleted => 200
  | .notFound => 404
  | .multipleFound => 500

/-- The `delete_media_asset` handler (src/main.py lines 221-234): `get` the
one row matching the body's four fields, 404 when none, delete it
otherwise. -/
def delete_media_asset (d : MediaAssetDeleteModel) (s : List MediaAsset) :
    List MediaAsset × DeleteReply :=
  if s.countP (fun r => matchesDelete d r) = 0 then
    (s, DeleteReply.notFound)
  else if s.countP (fun r => matchesDelete d r) = 1 then
    (s.eraseP (fun r => matchesDelete d r), DeleteReply.deleted)
  else
    (s, DeleteReply.multipleFound)

/-! ## Authentication gate and routing (src/main.py lines 26, 237-251) -/

/-- The `APIKeyHeader(name='X-API-Key')` security dependency
(fastapi/security/api_key.py, default `auto_error=True`): a missing or empty
header value raises `HTTPException(403, "Not authenticated")` before the
route dependency `is_authenticated` runs. -/
def check_api_key (header : Option String) : Except (Nat × String) String :=
  match header with
  | none => Except.error (403, "Not authenticated")
  | some k => if k == "" then Except.error (403, "Not authenticated") else Except.ok k

/-- The `is_authenticated` dependency (src/main.py lines 237-244): the header
value must equal `os.environ.get('API_KEY', '')`, else
`HTTPException(401, "Invalid API Key")`. -/
def is_authenticated (api_key : String) (env_api_key : Option String) :
    Except (Nat × String) Unit :=
  if api_key ≠ env_api_key.getD "" then Except.error (401, "Invalid API Key")
  else Except.ok ()

/-- A parsed request to one of the four routes of the `/media` router. -/
inductive MediaRoute where
  | list (q : MediaAssetQueryModel)
  | create (items : List MediaAssetCreateModel)
  | update (items : List BaseMediaAssetModel)
  | delete (d : MediaAssetDeleteModel)
  deriving Repr

/-- Dispatch to the route handler, projected to (resulting store, HTTP
status, error detail). An exception escaping the update handler is the
hosting runtime's 500. -/
def runRoute (route : MediaRoute) (s : List MediaAsset) (now : Nat) :
    List MediaAsset × Nat × Option String :=
  match route with
  | MediaRoute.list _ => (s, 200, none)
  | MediaRoute.create items =>
    match create_media_assets items s now with
    | (s', CreateReply.accepted _) => (s', 202, none)
    | (s', CreateReply.badRequest e) => (s', 400, some e)
  | MediaRoute.update items =>
    match update_media_assets items s with
    | Except.ok (s', _) => (s', 202, none)
    | Except.error e => (s, 500, some e)
  | MediaRoute.delete d =>
    match delete_media_asset d s with
    | (s', rep) => (s', rep.status, none)

/-- One request against the `/media` router
(`app.include_router(..., dependencies=[Depends(is_authenticated)])`,
src/main.py lines 246-251): the API-key header extraction and the
`is_authenticated` dependency guard every route; only when both pass does
the route handler run. -/
def handleMediaRequest (header env : Option String) (route : MediaRoute)
    (s : List MediaAsset) (now : Nat) : List MediaAsset × Nat × Option String :=
  match check_api_key header with
  | Except.error (code, d) => (s, code, some d)
  | Except.ok k =>
    match is_authenticated k env with
    | Except.error (code, d) => (s, code, some d)
    | Except.ok _ => runRoute route s now

/-! ## Predicates the claims are stated with -/

/-- The base fields of a stored row agree with the base model values a
request submitted (a `Required` entity attribute agrees with an optional
model field when the field carried exactly that value). -/
def baseFieldsMatch (r : MediaAsset) (x : BaseMediaAssetModel) : Bool :=
  r.gtin == x.gtin && r.channel == x.channel && r.mediaId == x.mediaId &&
  r.contentType == some x.contentType && r.mediaType == x.mediaType &&
  r.description == x.description && r.brand == x.brand && r.category == x.category &&
  some r.status == x.status && some r.resolutionKey == x.resolutionKey &&
  some r.resolutionInPx == x.resolutionInPx && r.hasCopyright == some x.hasCopyright

/-- The fields outside the update payload's base field set are identical in
two rows: `media`, `sizeInBytes`, `licenseValidFrom`, `licenseValidUntil`,
`sourceUrl`, `sourceUrlValidFrom`, `sourceUrlValidUntil`. -/
def frameUntouched (r r' : MediaAsset) : Bool :=
  r'.media == r.media && r'.sizeInBytes == r.sizeInBytes &&
  r'.licenseValidFrom == r.licenseValidFrom &&
  r'.licenseValidUntil == r.licenseValidUntil &&
  r'.sourceUrl == r.sourceUrl && r'.sourceUrlValidFrom == r.sourceUrlValidFrom &&
  r'.sourceUrlValidUntil == r.sourceUrlValidUntil

/-! ## Concrete requests and rows for witnesses and counterexamples -/

/-- A well-formed base payload used to build concrete requests. -/
def baseSample : BaseMediaAssetModel :=
  { gtin := "00000001"
    channel := "web"
    mediaId := "m-1"
    contentType := "image/png"
    mediaType := none
    description := none
    brand := none
    category := none
    status := some "ML010New"
    resolutionKey := some "ORIGINAL"
    resolutionInPx := some "640x480"
    hasCopyright := false }

/-- A create item carrying both a non-empty `payload` and a `sourceUrl`. -/
def itemC1 : MediaAssetCreateModel :=
  { baseSample with
    gtin := "10000001"
    media := some ⟨some "ZGF0YQ==", some "http://example.com/a.png", none⟩ }

/-- The row the create handler inserts for `itemC1`. -/
def recC1 : MediaAsset := buildRecord 0 itemC1 "ML010New" "ORIGINAL" "640x480"

/-- A create item that duplicates the `gtin` of `recC1`. -/
def itemC2 : MediaAssetCreateModel := { baseSample with gtin := "10000001" }

/-- A create item whose `media` has a non-empty `sourceUrl`. -/
def itemC4 : MediaAssetCreateModel :=
  { baseSample with
    gtin := "40000001"
    media := some ⟨none, some "http://example.com/b.png", some 9⟩ }

/-- The row the create handler inserts for `itemC4`. -/
def recC4 : MediaAsset := buildRecord 0 itemC4 "ML010New" "ORIGINAL" "640x480"

/-- A create item whose `media` carries `sourceUrl` present but EMPTY, with
a `sourceUrlValidUntil`. -/
def itemC4bad : MediaAssetCreateModel :=
  { baseSample with
    gtin := "40000002"
    media := some ⟨none, some "", some 7⟩ }

/-- The row the create handler inserts for `itemC4bad`. -/
def recC4bad : MediaAsset := buildRecord 0 itemC4bad "ML010New" "ORIGINAL" "640x480"

/-- A stored row with real (non-empty) values in every filterable column. -/
def recC5 : MediaAsset := buildRecord 0 { baseSample with gtin := "50000001" } "ML010New" "ORIGINAL" "640x480"

/-- A delete body supplying only `gtin` — the other three fields arrive as
`None`. -/
def delC5 : MediaAssetDeleteModel := { gtin := some "50000001" }

/-- A delete body supplying all four fields with `recC5`'s values. -/
def delC5full : MediaAssetDeleteModel :=
  { channel := some "web"
    gtin := some "50000001"
    mediaId := some "m-1"
    contentType := some "image/png" }

/-- An update item whose `gtin` matches no stored row. -/
def itemC7 : BaseMediaAssetModel := { baseSample with gtin := "70000009" }

/-- A stored row for the update witnesses (its `gtin` differs from
`itemC7`'s). -/
def recC7 : MediaAsset := buildRecord 0 { baseSample with gtin := "70000001" } "ML010New" "ORIGINAL" "640x480"

/-- A create item for the round-trip witness. -/
def itemC8 : MediaAssetCreateModel := { baseSample with gtin := "80000001" }

/-- An update item matching `recC9`'s `gtin` and changing several base
fields. -/
def itemC9 : BaseMediaAssetModel :=
  { baseSample with
    gtin := "90000001"
    channel := "print"
    description := some "updated"
    status := some "ML030Imported" }

/-- A stored row the update witness overwrites. -/
def recC9 : MediaAsset := buildRecord 3 { baseSample with gtin := "90000001" } "ML010New" "ORIGINAL" "640x480"

/-- The row `recC9` once `itemC9` has been applied by `set`. -/
def recC9set : MediaAsset :=
  { recC9 with
    gtin := "90000001"
    channel := "print"
    mediaId := "m-1"
    contentType := some "image/png"
    mediaType := none
    description := some "updated"
    brand := none
    category := none
    hasCopyright := some false
    status := "ML030Imported"
    resolutionKey := "ORIGINAL"
    resolutionInPx := "640x480" }

/-- A create item omitting `resolutionInPx` (optional in the request model,
required by the entity). -/
def itemC10 : MediaAssetCreateModel :=
  { baseSample with
    gtin := "A0000001"
    resolutionInPx := none }

/-- The row the create handler inserts for `itemC8`. -/
def recC8 : MediaAsset := buildRecord 0 itemC8 "ML010New" "ORIGINAL" "640x480"

/-! ## Lemmas about the creation endpoint -/

/-- A successful insert means the three storage-required optional fields were
supplied, the `gtin` was fresh, and the batch store grew by exactly the
built row. -/
theorem insertOne_ok_spec {now : Nat} {s s₂ : List MediaAsset} {x : MediaAssetCreateModel}
    (h : insertOne now s x = Except.ok s₂) :
    ∃ st rk rp, x.status = some st ∧ x.resolutionKey = some rk ∧ x.resolutionInPx = some rp ∧
      (∀ r ∈ s, r.gtin ≠ x.gtin) ∧ s₂ = s ++ [buildRecord now x st rk rp] := by
  cases hst : x.status with
  | none => simp [insertOne, hst] at h
  | some st =>
    cases hrk : x.resolutionKey with
    | none => simp [insertOne, hst, hrk] at h
    | some rk =>
      cases hrp : x.resolutionInPx with
      | none => simp [insertOne, hst, hrk, hrp] at h
      | some rp =>
        by_cases hdup : s.any (fun r => r.gtin == x.gtin) = true
        · simp [insertOne, hst, hrk, hrp, hdup] at h
        · refine ⟨st, rk, rp, rfl, rfl, rfl, ?_, ?_⟩
          · intro r hr he
            exact hdup (List.any_eq_true.mpr ⟨r, hr, by simp [he]⟩)
          · simp [insertOne, hst, hrk, hrp, hdup] at h
            exact h.symm

/-- An insert keeps every previously stored row. -/
theorem insertOne_subset {now : Nat} {s s₂ : List MediaAsset} {x : MediaAssetCreateModel}
    (h : insertOne now s x = Except.ok s₂) : ∀ r ∈ s, r ∈ s₂ := by
  obtain ⟨st, rk, rp, _, _, _, _, rfl⟩ := insertOne_ok_spec h
  intro r hr
  exact List.mem_append_left _ hr

/-- A successful batch keeps every previously stored row. -/
theorem processCreate_subset {now : Nat} :
    ∀ (items : List MediaAssetCreateModel) {s s₂ : List MediaAsset},
      processCreate now s items = Except.ok s₂ → ∀ r ∈ s, r ∈ s₂ := by
  intro items
  induction items with
  | nil =>
    intro s s₂ h r hr
    simp [processCreate] at h
    exact h ▸ hr
  | cons y rest ih =>
    intro s s₂ h r hr
    cases hins : insertOne now s y with
    | error e => simp [processCreate, hins] at h
    | ok s₁ =>
      have h' : processCreate now s₁ rest = Except.ok s₂ := by
        simpa [processCreate, hins] using h
      exact ih h' r (insertOne_subset hins r hr)

/-- Each item of a successful batch contributes its built row to the final
store. -/
theorem processCreate_ok_mem {now : Nat} :
    ∀ (items : List MediaAssetCreateModel) {s s₂ : List MediaAsset} {x : MediaAssetCreateModel},
      processCreate now s items = Except.ok s₂ → x ∈ items →
      ∃ st rk rp, x.status = some st ∧ x.resolutionKey = some rk ∧ x.resolutionInPx = some rp ∧
        buildRecord now x st rk rp ∈ s₂ := by
  intro items
  induction items with
  | nil =>
    intro s s₂ x _ hx
    simp at hx
  | cons y rest ih =>
    intro s s₂ x h hx
    cases hins : insertOne now s y with
    | error e => simp [processCreate, hins] at h
    | ok s₁ =>
      have h' : processCreate now s₁ rest = Except.ok s₂ := by
        simpa [processCreate, hins] using h
      rcases List.mem_cons.mp hx with rfl | hx'
      · obtain ⟨st, rk, rp, h1, h2, h3, _, rfl⟩ := insertOne_ok_spec hins
        exact ⟨st, rk, rp, h1, h2, h3, processCreate_subset rest h' _ (by simp)⟩
      · exact ih h' hx'

/-- When the batch holds an item whose insert must fail (under an invariant
`P` preserved by successful inserts), the whole batch fails. -/
theorem processCreate_error_of_bad_item {now : Nat} {x : MediaAssetCreateModel}
    {P : List MediaAsset → Prop}
    (hstep : ∀ s₂ s₃ (y : MediaAssetCreateModel), P s₂ →
      insertOne now s₂ y = Except.ok s₃ → P s₃)
    (herr : ∀ s₂, P s₂ → ∃ e, insertOne now s₂ x = Except.error e) :
    ∀ (items : List MediaAssetCreateModel), x ∈ items → ∀ (s₀ : List MediaAsset), P s₀ →
      ∃ e, processCreate now s₀ items = Except.error e := by
  intro items
  induction items with
  | nil =>
    intro hx
    simp at hx
  | cons y rest ih =>
    intro hx s₀ hP
    cases hins : insertOne now s₀ y with
    | error e => exact ⟨e, by simp [processCreate, hins]⟩
    | ok s₁ =>
      rcases List.mem_cons.mp hx with rfl | hx'
      · obtain ⟨e, he⟩ := herr s₀ hP
        simp [he] at hins
      · obtain ⟨e, he⟩ := ih hx' s₁ (hstep s₀ s₁ y hP hins)
        exact ⟨e, by simp [processCreate, hins, he]⟩

/-- An item lacking `status`, `resolutionKey` or `resolutionInPx` can never
be inserted, whatever the store holds. -/
theorem insertOne_never_ok_of_missing {now : Nat} {x : MediaAssetCreateModel}
    (homit : x.status = none ∨ x.resolutionKey = none ∨ x.resolutionInPx = none)
    (s₂ : List MediaAsset) : ∃ e, insertOne now s₂ x = Except.error e := by
  rcases homit with h | h | h
  · exact ⟨"Attribute MediaAsset.status is required", by simp [insertOne, h]⟩
  · cases hst : x.status with
    | none => exact ⟨"Attribute MediaAsset.status is required", by simp [insertOne, hst]⟩
    | some st =>
      exact ⟨"Attribute MediaAsset.resolutionKey is required", by simp [insertOne, hst, h]⟩
  · cases hst : x.status with
    | none => exact ⟨"Attribute MediaAsset.status is required", by simp [insertOne, hst]⟩
    | some st =>
      cases hrk : x.resolutionKey with
      | none =>
        exact ⟨"Attribute MediaAsset.resolutionKey is required", by simp [insertOne, hst, hrk]⟩
      | some rk =>
        exact ⟨"Attribute MediaAsset.resolutionInPx is required", by simp [insertOne, hst, hrk, h]⟩

/-- An item whose `gtin` is already stored can never be inserted. -/
theorem insertOne_error_of_dup {now : Nat} {x : MediaAssetCreateModel} {s₂ : List MediaAsset}
    (hdup : ∃ r ∈ s₂, r.gtin = x.gtin) : ∃ e, insertOne now s₂ x = Except.error e := by
  obtain ⟨r, hr, he⟩ := hdup
  have hany : s₂.any (fun r => r.gtin == x.gtin) = true :=
    List.any_eq_true.mpr ⟨r, hr, by simp [he]⟩
  cases hst : x.status with
  | none => exact ⟨"Attribute MediaAsset.status is required", by simp [insertOne, hst]⟩
  | some st =>
    cases hrk : x.resolutionKey with
    | none =>
      exact ⟨"Attribute MediaAsset.resolutionKey is required", by simp [insertOne, hst, hrk]⟩
    | some rk =>
      cases hrp : x.resolutionInPx with
      | none =>
        exact ⟨"Attribute MediaAsset.resolutionInPx is required",
          by simp [insertOne, hst, hrk, hrp]⟩
      | some rp =>
        exact ⟨"Cannot create MediaAsset: value " ++ x.gtin ++ " for key gtin already exists",
          by simp [insertOne, hst, hrk, hrp, hany]⟩

/-- A 202 reply means the session committed: the batch loop succeeded and
its result is the new store. -/
theorem create_accepted_processCreate_ok {items out : List MediaAssetCreateModel}
    {s s' : List MediaAsset} {now : Nat}
    (hrun : create_media_assets items s now = (s', CreateReply.accepted out)) :
    processCreate now s items = Except.ok s' := by
  cases hres : processCreate now s items with
  | ok s₁ =>
    simp [create_media_assets, hres] at hrun
    rw [hrun.1]
  | error e => simp [create_media_assets, hres] at hrun

/-! ## Claim theorems: creation endpoint -/

/-- C1 (code bug): a creation request whose media sub-object carries a
non-empty `payload` together with a `sourceUrl` is NOT rejected. The
`validate_payload` validator is attached to `payload`, the first declared
field of `MediaModel`, so pydantic v1 hands it an empty `values` dict and
the mutual-exclusion check can never fire: the request parses, reaches the
handler and is stored. -/
theorem payload_and_source_url_accepted :
    MediaModel.parse (some "ZGF0YQ==") (some "http://example.com/a.png") none =
      Except.ok ⟨some "ZGF0YQ==", some "http://example.com/a.png", none⟩ ∧
    itemC1.media = some ⟨some "ZGF0YQ==", some "http://example.com/a.png", none⟩ ∧
    validCreateItem itemC1 = true ∧
    create_media_assets [itemC1] [] 0 = ([recC1], CreateReply.accepted [itemC1]) :=
  ⟨rfl, rfl, rfl, rfl⟩

/-- C2: any error inside the creation batch yields a 400 reply carrying the
error text, with the store rolled back to its state at entry; in particular
a batch holding an item whose `gtin` already exists always fails that way,
whatever else the batch holds. -/
theorem create_batch_atomic_400 (items : List MediaAssetCreateModel)
    (s : List MediaAsset) (now : Nat) :
    (∀ e, processCreate now s items = Except.error e →
      create_media_assets items s now = (s, CreateReply.badRequest e)) ∧
    (∀ e, (CreateReply.badRequest e).status = 400) ∧
    (∀ x ∈ items, (∃ r ∈ s, r.gtin = x.gtin) →
      ∃ e, create_media_assets items s now = (s, CreateReply.badRequest e)) := by
  refine ⟨?_, fun _ => rfl, ?_⟩
  · intro e he
    simp [create_media_assets, he]
  · intro x hx hdup
    have hstep : ∀ s₂ s₃ (y : MediaAssetCreateModel), (∃ r ∈ s₂, r.gtin = x.gtin) →
        insertOne now s₂ y = Except.ok s₃ → (∃ r ∈ s₃, r.gtin = x.gtin) := by
      intro s₂ s₃ y hp hins
      obtain ⟨r, hr, he⟩ := hp
      exact ⟨r, insertOne_subset hins r hr, he⟩
    obtain ⟨e, he⟩ := processCreate_error_of_bad_item hstep
      (fun s₂ hp => insertOne_error_of_dup hp) items hx s hdup
    exact ⟨e, by simp [create_media_assets, he]⟩

/-- Witness for C2: creating `itemC2`, whose `gtin` duplicates the stored
`recC1`, rolls the store back and answers 400. -/
theorem create_batch_atomic_400_witness :
    ∃ e, create_media_assets [itemC2] [recC1] 0 = ([recC1], CreateReply.badRequest e) :=
  (create_batch_atomic_400 [itemC2] [recC1] 0).2.2 itemC2 (by simp) ⟨recC1, by simp, rfl⟩

/-- C4 (amended): an item whose media sub-object carries a NON-EMPTY
`sourceUrl` stores a row with that `sourceUrl`, and with both
`sourceUrlValidFrom` and `sourceUrlValidUntil` equal to the sub-object's
`sourceUrlValidUntil`. -/
theorem create_copies_source_url (items : List MediaAssetCreateModel)
    (s s' : List MediaAsset) (now : Nat) (x : MediaAssetCreateModel) (m : MediaModel)
    (u : String)
    (hrun : create_media_assets items s now = (s', CreateReply.accepted items))
    (hmem : x ∈ items) (hm : x.media = some m) (hu : m.sourceUrl = some u)
    (hne : u ≠ "") :
    (s'.any fun r => r.gtin == x.gtin && r.sourceUrl == some u &&
      r.sourceUrlValidFrom == m.sourceUrlValidUntil &&
      r.sourceUrlValidUntil == m.sourceUrlValidUntil) = true := by
  obtain ⟨st, rk, rp, hst, hrk, hrp, hmemrec⟩ :=
    processCreate_ok_mem items (create_accepted_processCreate_ok hrun) hmem
  refine List.any_eq_true.mpr ⟨buildRecord now x st rk rp, hmemrec, ?_⟩
  have hsf : sourceFields x.media = (some u, m.sourceUrlValidUntil, m.sourceUrlValidUntil) := by
    rw [hm]
    simp [sourceFields, truthyStr, hu, hne]
  simp [buildRecord, hsf]

/-- Witness for C4: `itemC4` stores its `sourceUrl` and copies its
`sourceUrlValidUntil` into both validity bounds. -/
theorem create_copies_source_url_witness :
    ([recC4].any fun r => r.gtin == itemC4.gtin &&
      r.sourceUrl == some "http://example.com/b.png" &&
      r.sourceUrlValidFrom == (some 9 : Option Nat) &&
      r.sourceUrlValidUntil == (some 9 : Option Nat)) = true :=
  create_copies_source_url [itemC4] [] [recC4] 0 itemC4
    ⟨none, some "http://example.com/b.png", some 9⟩ "http://example.com/b.png"
    rfl (by simp) rfl rfl (by decide)

/-- Counterexample for C4 as stated: a media sub-object with `sourceUrl`
present but empty and `sourceUrlValidUntil = 7` is stored, yet none of the
three source fields receives the claimed values — the handler's truthiness
test skips the copy for an empty string. -/
theorem create_source_url_empty_counterexample :
    itemC4bad.media = some ⟨none, some "", some 7⟩ ∧
    create_media_assets [itemC4bad] [] 0 = ([recC4bad], CreateReply.accepted [itemC4bad]) ∧
    recC4bad.sourceUrlValidFrom ≠ some 7 ∧
    recC4bad.sourceUrlValidUntil ≠ some 7 :=
  ⟨rfl, rfl, by decide, by decide⟩

/-- C8: every item of a successfully created batch is returned by an
immediate listing filtered on its `gtin`, with all twelve base fields equal
to the submitted values. -/
theorem create_then_list_round_trip (items : List MediaAssetCreateModel)
    (s s' : List MediaAsset) (now : Nat) (x : MediaAssetCreateModel)
    (hrun : create_media_assets items s now = (s', CreateReply.accepted items))
    (hmem : x ∈ items) :
    ((get_media_assets { gtin := some x.gtin } s').any
      fun r => baseFieldsMatch r x.toBaseMediaAssetModel) = true := by
  obtain ⟨st, rk, rp, hst, hrk, hrp, hmemrec⟩ :=
    processCreate_ok_mem items (create_accepted_processCreate_ok hrun) hmem
  refine List.any_eq_true.mpr ⟨buildRecord now x st rk rp, ?_, ?_⟩
  · refine List.mem_filter.mpr ⟨hmemrec, ?_⟩
    simp [matchesQuery, matchOptReq, matchOptOpt, buildRecord]
  · simp [baseFieldsMatch, buildRecord, hst, hrk, hrp]

/-- Witness for C8: creating `itemC8` into an empty store and listing by
its `gtin` returns a row with all base fields as submitted. -/
theorem create_then_list_round_trip_witness :
    ((get_media_assets { gtin := some itemC8.gtin } [recC8]).any
      fun r => baseFieldsMatch r itemC8.toBaseMediaAssetModel) = true :=
  create_then_list_round_trip [itemC8] [] [recC8] 0 itemC8 rfl (by simp)

/-- C10: a batch holding an item that omits `status`, `resolutionKey` or
`resolutionInPx` — optional in the request model, so it passes request
validation — fails at the storage layer: the reply is a 400 and the store
is exactly what it was before the call. -/
theorem create_missing_required_rejected (items : List MediaAssetCreateModel)
    (s : List MediaAsset) (now : Nat) (x : MediaAssetCreateModel)
    (hmem : x ∈ items) (hvalid : validCreateItem x = true)
    (homit : x.status = none ∨ x.resolutionKey = none ∨ x.resolutionInPx = none) :
    (create_media_assets items s now).1 = s ∧
    ∃ e, (create_media_assets items s now).2 = CreateReply.badRequest e := by
  obtain ⟨e, he⟩ := @processCreate_error_of_bad_item now x (fun _ => True)
    (fun _ _ _ _ _ => trivial) (fun s₂ _ => insertOne_never_ok_of_missing homit s₂)
    items hmem s trivial
  exact ⟨by simp [create_media_assets, he], e, by simp [create_media_assets, he]⟩

/-- Witness for C10: `itemC10` omits `resolutionInPx`, passes request
validation, and its batch is rejected with a 400 and no stored row. -/
theorem create_missing_required_rejected_witness :
    (create_media_assets [itemC10] [] 0).1 = [] ∧
    ∃ e, (create_media_assets [itemC10] [] 0).2 = CreateReply.badRequest e :=
  create_missing_required_rejected [itemC10] [] 0 itemC10 (by simp) rfl
    (Or.inr (Or.inr rfl))

/-! ## Lemmas about the update endpoint -/

/-- A successful `set` means the three storage-required optional fields were
supplied and the row is the old row with exactly the base fields
overwritten. -/
theorem setRecord_ok_spec {r r' : MediaAsset} {x : BaseMediaAssetModel}
    (h : setRecord r x = Except.ok r') :
    ∃ st rk rp, x.status = some st ∧ x.resolutionKey = some rk ∧ x.resolutionInPx = some rp ∧
      r' = { r with
        gtin := x.gtin
        channel := x.channel
        mediaId := x.mediaId
        contentType := some x.contentType
        mediaType := x.mediaType
        description := x.description
        brand := x.brand
        category := x.category
        hasCopyright := some x.hasCopyright
        status := st
        resolutionKey := rk
        resolutionInPx := rp } := by
  cases hst : x.status with
  | none => simp [setRecord, hst] at h
  | some st =>
    cases hrk : x.resolutionKey with
    | none => simp [setRecord, hst, hrk] at h
    | some rk =>
      cases hrp : x.resolutionInPx with
      | none => simp [setRecord, hst, hrk, hrp] at h
      | some rp =>
        simp [setRecord, hst, hrk, hrp] at h
        exact ⟨st, rk, rp, rfl, rfl, rfl, h.symm⟩

/-- A successful `set` leaves the seven non-base fields untouched and writes
every base-model field onto the row. -/
theorem setRecord_frame_base {r r' : MediaAsset} {x : BaseMediaAssetModel}
    (h : setRecord r x = Except.ok r') :
    frameUntouched r r' = true ∧ baseFieldsMatch r' x = true := by
  obtain ⟨st, rk, rp, hst, hrk, hrp, rfl⟩ := setRecord_ok_spec h
  refine ⟨by simp [frameUntouched], ?_⟩
  simp [baseFieldsMatch, hst, hrk, hrp]

/-- Reflexivity of the frame comparison. -/
theorem frameUntouched_refl (r : MediaAsset) : frameUntouched r r = true := by
  simp [frameUntouched]

/-- Transitivity of the frame comparison. -/
theorem frameUntouched_trans {a b c : MediaAsset} (h₁ : frameUntouched a b = true)
    (h₂ : frameUntouched b c = true) : frameUntouched a c = true := by
  simp only [frameUntouched, Bool.and_eq_true, beq_iff_eq, and_assoc] at h₁ h₂ ⊢
  obtain ⟨g1, g2, g3, g4, g5, g6, g7⟩ := h₁
  obtain ⟨k1, k2, k3, k4, k5, k6, k7⟩ := h₂
  exact ⟨k1.trans g1, k2.trans g2, k3.trans g3, k4.trans g4, k5.trans g5,
    k6.trans g6, k7.trans g7⟩

/-- One update-loop step relates each old row to its new row by the frame
comparison (the matched row through `set`, every other row unchanged). -/
theorem updateStep_forall₂ {x : BaseMediaAssetModel} :
    ∀ {s s₂ : List MediaAsset}, updateStep x s = Except.ok s₂ →
      List.Forall₂ (fun u v => frameUntouched u v = true) s s₂ := by
  intro s
  induction s with
  | nil =>
    intro s₂ h
    simp [updateStep] at h
    subst h
    exact List.Forall₂.nil
  | cons r rest ih =>
    intro s₂ h
    by_cases hg : (r.gtin == x.gtin) = true
    · cases hsr : setRecord r x with
      | error e => simp [updateStep, hg, hsr] at h
      | ok r' =>
        have hs₂ : r' :: rest = s₂ := by simpa [updateStep, hg, hsr] using h
        rw [← hs₂]
        exact List.Forall₂.cons (setRecord_frame_base hsr).1
          (List.forall₂_same.mpr fun a _ => frameUntouched_refl a)
    · cases hrest : updateStep x rest with
      | error e => simp [updateStep, hg, hrest] at h
      | ok rest' =>
        have hs₂ : r :: rest' = s₂ := by simpa [updateStep, hg, hrest] using h
        rw [← hs₂]
        exact List.Forall₂.cons (frameUntouched_refl r) (ih hrest)

/-- Transitivity of the rowwise frame relation. -/
theorem forall₂_frame_trans : ∀ {a b c : List MediaAsset},
    List.Forall₂ (fun u v => frameUntouched u v = true) a b →
    List.Forall₂ (fun u v => frameUntouched u v = true) b c →
    List.Forall₂ (fun u v => frameUntouched u v = true) a c := by
  intro a b c h₁
  induction h₁ generalizing c with
  | nil =>
    intro h₂
    cases h₂
    exact List.Forall₂.nil
  | cons hab h₁' ih =>
    intro h₂
    cases h₂ with
    | cons hbc h₂' => exact List.Forall₂.cons (frameUntouched_trans hab hbc) (ih h₂')

/-- The whole update batch relates each old row to its new row by the frame
comparison. -/
theorem processUpdate_forall₂ : ∀ (items : List BaseMediaAssetModel)
    {s s₂ : List MediaAsset}, processUpdate s items = Except.ok s₂ →
    List.Forall₂ (fun u v => frameUntouched u v = true) s s₂ := by
  intro items
  induction items with
  | nil =>
    intro s s₂ h
    simp [processUpdate] at h
    subst h
    exact List.forall₂_same.mpr fun a _ => frameUntouched_refl a
  | cons y rest ih =>
    intro s s₂ h
    cases hstep : updateStep y s with
    | error e => simp [processUpdate, hstep] at h
    | ok s₁ =>
      have h' : processUpdate s₁ rest = Except.ok s₂ := by
        simpa [processUpdate, hstep] using h
      exact forall₂_frame_trans (updateStep_forall₂ hstep) (ih h')

/-- The rowwise frame relation, read on the zipped lists. -/
theorem forall₂_frame_zip_all : ∀ {l l' : List MediaAsset},
    List.Forall₂ (fun u v => frameUntouched u v = true) l l' →
    ((l.zip l').all fun p => frameUntouched p.1 p.2) = true := by
  intro l l' h
  induction h with
  | nil => rfl
  | cons h₁ _ ih => simp [List.zip_cons_cons, h₁, ih]

/-- An update step on a store holding no row with the item's `gtin` is the
identity and raises nothing. -/
theorem updateStep_no_match {x : BaseMediaAssetModel} :
    ∀ {s : List MediaAsset}, (∀ r ∈ s, r.gtin ≠ x.gtin) →
      updateStep x s = Except.ok s := by
  intro s
  induction s with
  | nil => intro; rfl
  | cons r rest ih =>
    intro hs
    have hg : (r.gtin == x.gtin) = false := beq_eq_false_iff_ne.mpr (hs r (by simp))
    simp [updateStep, hg, ih fun r' hr' => hs r' (List.mem_cons_of_mem _ hr')]

/-- An update step never makes a `gtin` appear that no row had. -/
theorem updateStep_gtin_preserved {x : BaseMediaAssetModel} {g : String} :
    ∀ {s s₂ : List MediaAsset}, updateStep x s = Except.ok s₂ →
      (∀ r ∈ s, r.gtin ≠ g) → ∀ r ∈ s₂, r.gtin ≠ g := by
  intro s
  induction s with
  | nil =>
    intro s₂ h _
    simp [updateStep] at h
    subst h
    simp
  | cons r rest ih =>
    intro s₂ h hs
    by_cases hg : (r.gtin == x.gtin) = true
    · cases hsr : setRecord r x with
      | error e => simp [updateStep, hg, hsr] at h
      | ok r' =>
        have hs₂ : r' :: rest = s₂ := by simpa [updateStep, hg, hsr] using h
        rw [← hs₂]
        intro r₂ hr₂
        rcases List.mem_cons.mp hr₂ with rfl | hr₂'
        · obtain ⟨st, rk, rp, _, _, _, rfl⟩ := setRecord_ok_spec hsr
          have hrx : r.gtin = x.gtin := by simpa using hg
          simpa [← hrx] using hs r (by simp)
        · exact hs r₂ (List.mem_cons_of_mem _ hr₂')
    · cases hrest : updateStep x rest with
      | error e => simp [updateStep, hg, hrest] at h
      | ok rest' =>
        have hs₂ : r :: rest' = s₂ := by simpa [updateStep, hg, hrest] using h
        rw [← hs₂]
        intro r₂ hr₂
        rcases List.mem_cons.mp hr₂ with rfl | hr₂'
        · exact hs r₂ (by simp)
        · exact ih hrest (fun r₃ hr₃ => hs r₃ (List.mem_cons_of_mem _ hr₃)) r₂ hr₂'

/-- The whole update batch never makes a `gtin` appear that no row had. -/
theorem processUpdate_gtin_preserved {g : String} :
    ∀ (items : List BaseMediaAssetModel) {s s₂ : List MediaAsset},
      processUpdate s items = Except.ok s₂ →
      (∀ r ∈ s, r.gtin ≠ g) → ∀ r ∈ s₂, r.gtin ≠ g := by
  intro items
  induction items with
  | nil =>
    intro s s₂ h hs
    simp [processUpdate] at h
    subst h
    exact hs
  | cons y rest ih =>
    intro s s₂ h hs
    cases hstep : updateStep y s with
    | error e => simp [processUpdate, hstep] at h
    | ok s₁ =>
      have h' : processUpdate s₁ rest = Except.ok s₂ := by
        simpa [processUpdate, hstep] using h
      exact ih h' (updateStep_gtin_preserved hstep hs)

/-! ## Claim theorems: update endpoint -/

/-- C7: an update item whose `gtin` matches no stored row is silently
skipped — its step raises nothing and changes nothing — and when the batch
answers (202), the submitted list is echoed in full and still no row holds
that `gtin`. -/
theorem update_unmatched_item_skipped (s : List MediaAsset) (x : BaseMediaAssetModel)
    (pre post : List BaseMediaAssetModel)
    (hx : ∀ r ∈ s, r.gtin ≠ x.gtin) :
    updateStep x s = Except.ok s ∧
    ∀ s' out, update_media_assets (pre ++ x :: post) s = Except.ok (s', out) →
      out = pre ++ x :: post ∧ ∀ r ∈ s', r.gtin ≠ x.gtin := by
  refine ⟨updateStep_no_match hx, ?_⟩
  intro s' out h
  cases hp : processUpdate s (pre ++ x :: post) with
  | error e => simp [update_media_assets, hp] at h
  | ok s₁ =>
    simp [update_media_assets, hp] at h
    obtain ⟨h1, h2⟩ := h
    refine ⟨h2.symm, ?_⟩
    rw [← h1]
    exact processUpdate_gtin_preserved _ hp hx

/-- Witness for C7: updating with `itemC7`, whose `gtin` matches nothing in
the store `[recC7]`, succeeds and leaves the store unchanged. -/
theorem update_unmatched_item_skipped_witness :
    updateStep itemC7 [recC7] = Except.ok [recC7] :=
  (update_unmatched_item_skipped [recC7] itemC7 [] [] (by decide)).1

/-- C9: a successful update batch passes all base-model fields (omitted ones
as `None`) to the located rows' `set` and touches nothing else — the store
keeps its length, each row keeps its `media`, `sizeInBytes`,
`licenseValidFrom`, `licenseValidUntil`, `sourceUrl`, `sourceUrlValidFrom`
and `sourceUrlValidUntil`, and a successful `set` writes exactly the base
fields. -/
theorem update_touches_only_base_fields (items : List BaseMediaAssetModel)
    (s s' : List MediaAsset) (out : List BaseMediaAssetModel)
    (hrun : update_media_assets items s = Except.ok (s', out)) :
    s'.length = s.length ∧
    ((s.zip s').all fun p => frameUntouched p.1 p.2) = true ∧
    ∀ (r r' : MediaAsset) (x : BaseMediaAssetModel), setRecord r x = Except.ok r' →
      frameUntouched r r' = true ∧ baseFieldsMatch r' x = true := by
  have hpu : processUpdate s items = Except.ok s' := by
    cases hp : processUpdate s items with
    | ok s₁ =>
      simp [update_media_assets, hp] at hrun
      rw [hrun.1]
    | error e => simp [update_media_assets, hp] at hrun
  have hf := processUpdate_forall₂ items hpu
  exact ⟨(List.Forall₂.length_eq hf).symm, forall₂_frame_zip_all hf,
    fun r r' x h => setRecord_frame_base h⟩

/-- Witness for C9: overwriting `recC9` with `itemC9` keeps all seven
non-base fields. -/
theorem update_touches_only_base_fields_witness :
    (([recC9].zip [recC9set]).all fun p => frameUntouched p.1 p.2) = true :=
  (update_touches_only_base_fields [itemC9] [recC9] [recC9set] [itemC9] rfl).2.1

/-! ## Claim theorems: listing, deletion, authentication -/

/-- C6: a listing with no query parameter returns every stored row; a
listing returns exactly the rows matching all supplied non-null filters
AND-combined; in particular filtering on `gtin` returns exactly the rows
with that `gtin`. -/
theorem listing_filters_and_combined (s : List MediaAsset) (q : MediaAssetQueryModel)
    (r : MediaAsset) (g : String) :
    get_media_assets {} s = s ∧
    (r ∈ get_media_assets q s ↔ r ∈ s ∧ matchesQuery q r = true) ∧
    (r ∈ get_media_assets { gtin := some g } s ↔ r ∈ s ∧ r.gtin = g) := by
  refine ⟨?_, List.mem_filter, ?_⟩
  · exact List.filter_eq_self.mpr fun a _ => rfl
  · constructor
    · intro h
      have hm := List.mem_filter.mp h
      refine ⟨hm.1, ?_⟩
      have hq := hm.2
      simpa [matchesQuery, matchOptReq, matchOptOpt] using hq
    · intro h
      exact List.mem_filter.mpr ⟨h.1, by simp [matchesQuery, matchOptReq, matchOptOpt, h.2]⟩

/-- C5 (code bug eval): the delete handler passes the body's `None` fields
into the lookup, so a body supplying only `gtin` fails to match the stored
row carrying that very `gtin` — nothing is deleted and the reply is the
not-found one — while a body supplying all four fields does delete it. -/
theorem delete_with_omitted_fields_misses :
    matchesDelete delC5 recC5 = false ∧
    delete_media_asset delC5 [recC5] = ([recC5], DeleteReply.notFound) ∧
    DeleteReply.notFound.status = 404 ∧
    delete_media_asset delC5full [recC5] = ([], DeleteReply.deleted) :=
  ⟨rfl, rfl, rfl, rfl⟩

/-- C3 (amended): a request with a missing or empty `X-API-Key` header is
rejected as 403 "Not authenticated" by the header extractor; a request with
a non-empty header differing from the `API_KEY` environment value (empty
string when unset) is rejected as 401 "Invalid API Key"; in both cases the
store is unchanged — no route handler runs. -/
theorem media_routes_auth_gate (header env : Option String) (route : MediaRoute)
    (s : List MediaAsset) (now : Nat) :
    ((header = none ∨ header = some "") →
      handleMediaRequest header env route s now = (s, 403, some "Not authenticated")) ∧
    (∀ k, header = some k → k ≠ "" → k ≠ env.getD "" →
      handleMediaRequest header env route s now = (s, 401, some "Invalid API Key")) := by
  constructor
  · rintro (rfl | rfl)
    · rfl
    · rfl
  · rintro k rfl hk hkey
    have h1 : (k == "") = false := beq_eq_false_iff_ne.mpr hk
    simp [handleMediaRequest, check_api_key, h1, is_authenticated, hkey]

/-- Witness for C3: a wrong non-empty key gets 401 "Invalid API Key" and the
store is untouched. -/
theorem media_routes_auth_gate_witness :
    handleMediaRequest (some "wrong") (some "right") (MediaRoute.delete delC5) [recC5] 5 =
      ([recC5], 401, some "Invalid API Key") :=
  (media_routes_auth_gate (some "wrong") (some "right") (MediaRoute.delete delC5)
    [recC5] 5).2 "wrong" rfl (by decide) (by decide)

/-- Counterexample for C3 as stated: a request with NO `X-API-Key` header is
answered 403 "Not authenticated" (FastAPI's `APIKeyHeader` with the default
`auto_error=True`), not 401 "Invalid API Key". -/
theorem missing_header_not_401_counterexample :
    handleMediaRequest none (some "secret") (MediaRoute.list {}) [] 0 =
      ([], 403, some "Not authenticated") ∧ (403 : Nat) ≠ 401 :=
  ⟨rfl, by decide⟩

end MediaLake
